import Mathlib

/-!
Shallow embedding of `src/Python/database.py` (AIRS singing app persistence
layer, SQLite backed).

Modelling conventions:
* The database state visible on the single connection is a `State` record of
  four tables, each a list of rows in insertion order, plus the AUTOINCREMENT
  counters.  SQLite `REAL` values (grades, averages) are modelled as `ℚ`,
  `INTEGER` as `Nat`/`ℤ`, `TEXT` timestamps as `String` (SQLite compares TEXT
  with binary collation, i.e. lexicographically, which the `String` order
  mirrors for the fixed-width `YYYY-MM-DD HH:MM:SS` format).
* `datetime.now(timezone.utc).strftime(...)` is an environment input, so every
  operation that records a timestamp takes it as an explicit argument.
* `PRAGMA foreign_keys = ON` is in force (`create_connection`), so an INSERT
  with a dangling reference and a DELETE of a still-referenced parent row both
  raise `sqlite3.Error`.  Every operation wraps its statements in
  `try/except sqlite3.Error`, so a raised error makes the function return with
  the statements executed so far still visible on the connection (the module
  never rolls back) and nothing propagates to the caller.
-/

structure UserRow where
  id : Nat
  name : String
  created_at : String
deriving DecidableEq, Repr

structure ExerciseRow where
  id : Nat
  name : String
  description : String
deriving DecidableEq, Repr

structure GradeRow where
  id : Nat
  user_id : Nat
  exercise_id : Nat
  grade : ℚ
  time_attempt : String
deriving DecidableEq, Repr

structure ProgressRow where
  user_id : Nat
  exercise_id : Nat
  average_grade : ℚ
  attempt_count : ℤ
  last_attempt : String
deriving DecidableEq, Repr

structure State where
  users : List UserRow
  exercises : List ExerciseRow
  grades : List GradeRow
  progress : List ProgressRow
  nextUserId : Nat
  nextExerciseId : Nat
  nextGradeId : Nat
deriving DecidableEq, Repr

/-- The state right after `create_tables` on a fresh database: all four tables
empty, AUTOINCREMENT counters at 1. -/
def initialState : State :=
  { users := [], exercises := [], grades := [], progress := [],
    nextUserId := 1, nextExerciseId := 1, nextGradeId := 1 }

/-- Whether a row of `users` with the given id exists (the check SQLite's
foreign-key enforcement performs against `users(id)`). -/
def userExists (s : State) (user_id : Nat) : Bool :=
  s.users.any (fun r => r.id == user_id)

/-- Whether a row of `exercises` with the given id exists. -/
def exerciseExists (s : State) (exercise_id : Nat) : Bool :=
  s.exercises.any (fun r => r.id == exercise_id)

/-- `calculate_progress(progress, new_grade)`: `progress` is the
`(average_grade, attempt_count)` tuple fetched from `user_progress`, or `None`;
`progress or (0,0)` defaults only the `None` case because a two-element tuple
is always truthy in Python. -/
def calculate_progress (progress : Option (ℚ × ℤ)) (new_grade : ℚ) : ℚ × ℤ :=
  let old := progress.getD (0, 0)
  let old_average_grade := old.1
  let old_attempts := old.2
  let new_attempts := old_attempts + 1
  let new_average := ((old_average_grade * (old_attempts : ℚ)) + new_grade) / (new_attempts : ℚ)
  (new_average, new_attempts)

/-- Row predicate of `WHERE user_id = ? AND exercise_id = ?` on
`user_progress`. -/
def pairMatch (user_id exercise_id : Nat) (r : ProgressRow) : Bool :=
  r.user_id == user_id && r.exercise_id == exercise_id

/-- `update_user_progression(connection, user_id, exercise_id, new_grade)`:
`SELECT average_grade, attempt_count ... fetchone()` takes the first matching
row; depending on its presence the row is updated in place (`UPDATE ... WHERE
user_id = ? AND exercise_id = ?`) or a fresh row is inserted. -/
def update_user_progression (s : State) (user_id exercise_id : Nat)
    (new_grade : ℚ) (date : String) : State :=
  let current_progress := s.progress.find? (pairMatch user_id exercise_id)
  let np := calculate_progress
    (current_progress.map (fun r => (r.average_grade, r.attempt_count))) new_grade
  match current_progress with
  | some _ =>
      { s with progress := s.progress.map (fun r =>
          if pairMatch user_id exercise_id r then
            { r with average_grade := np.1, attempt_count := np.2, last_attempt := date }
          else r) }
  | none =>
      { s with progress := s.progress ++
          [{ user_id := user_id, exercise_id := exercise_id,
             average_grade := np.1, attempt_count := np.2, last_attempt := date }] }

/-- `add_user(connection, name)`: INSERT INTO users, id assigned by
AUTOINCREMENT, `created_at` from the UTC clock. -/
def add_user (s : State) (name : String) (date : String) : State :=
  { s with
    users := s.users ++ [{ id := s.nextUserId, name := name, created_at := date }],
    nextUserId := s.nextUserId + 1 }

/-- `add_exercise(connection, name, description)`. -/
def add_exercise (s : State) (name description : String) : State :=
  { s with
    exercises := s.exercises ++
      [{ id := s.nextExerciseId, name := name, description := description }],
    nextExerciseId := s.nextExerciseId + 1 }

/-- `add_grade(connection, user_id, exercise_id, grade)`: the INSERT INTO
grades is rejected by foreign-key enforcement when `user_id` or `exercise_id`
is dangling; the raised `sqlite3.Error` is caught and the call returns before
`update_user_progression` runs.  On success the grade row is committed and the
progress row for the pair is updated. -/
def add_grade (s : State) (user_id exercise_id : Nat) (grade : ℚ)
    (date : String) : State :=
  if userExists s user_id && exerciseExists s exercise_id then
    let s1 := { s with
      grades := s.grades ++
        [{ id := s.nextGradeId, user_id := user_id, exercise_id := exercise_id,
           grade := grade, time_attempt := date }],
      nextGradeId := s.nextGradeId + 1 }
    update_user_progression s1 user_id exercise_id grade date
  else s

/-- `get_users(connection)`: `SELECT * FROM users`, all rows in table order. -/
def get_users (s : State) : List UserRow :=
  s.users

/-- `get_exercises(connection)`: `SELECT * FROM exercises`. -/
def get_exercises (s : State) : List ExerciseRow :=
  s.exercises

/-- Result rows of `get_grades_of_user`: `(exercises.name, grades.grade,
grades.time_attempt)`. -/
abbrev GradeView := String × ℚ × String

/-- The join/filter part of `get_grades_of_user`'s query, before `ORDER BY`:
`FROM grades JOIN exercises ON grades.exercise_id = exercises.id WHERE
grades.user_id = ?`, grade rows enumerated in insertion order. -/
def joinGrades (s : State) (user_id : Nat) : List GradeView :=
  (s.grades.filter (fun g => g.user_id == user_id)).flatMap (fun g =>
    (s.exercises.filter (fun ex => ex.id == g.exercise_id)).map (fun ex =>
      (ex.name, g.grade, g.time_attempt)))

/-- `ORDER BY grades.time_attempt DESC`: `laterFirst a b` says `a` may precede
`b` in the output, i.e. `a`'s timestamp is ≥ `b`'s. -/
def laterFirst (a b : GradeView) : Prop :=
  b.2.2 ≤ a.2.2

instance : DecidableRel laterFirst :=
  fun a b => inferInstanceAs (Decidable (b.2.2 ≤ a.2.2))

instance : IsTotal GradeView laterFirst :=
  ⟨fun a b => (le_total b.2.2 a.2.2).imp id id⟩

instance : IsTrans GradeView laterFirst :=
  ⟨fun _ _ _ hab hbc => le_trans hbc hab⟩

/-- `get_grades_of_user(connection, user_id)`: join, filter to the user, order
by timestamp descending (a stable sort over the joined rows). -/
def get_grades_of_user (s : State) (user_id : Nat) : List GradeView :=
  (joinGrades s user_id).insertionSort laterFirst

/-- `get_user_progress(connection, user_id)`: `SELECT user_id, average_grade,
attempt_count, last_attempt FROM user_progress WHERE user_id = ?` followed by
`fetchone()` — the first matching row in table order, if any, regardless of
which exercise it belongs to. -/
def get_user_progress (s : State) (user_id : Nat) :
    Option (Nat × ℚ × ℤ × String) :=
  (s.progress.find? (fun r => r.user_id == user_id)).map (fun r =>
    (r.user_id, r.average_grade, r.attempt_count, r.last_attempt))

/-- Whether the second statement of `remove_user` (`DELETE FROM users WHERE
id = ?`) raises: with `PRAGMA foreign_keys = ON`, deleting a user still
referenced by a `user_progress` row fails the foreign-key check (the grade
rows referencing the user were already deleted by the first statement). -/
def remove_user_err (s : State) (user_id : Nat) : Bool :=
  s.progress.any (fun r => r.user_id == user_id)

/-- `remove_user(connection, user_id)`: `DELETE FROM grades WHERE user_id = ?`
then `DELETE FROM users WHERE id = ?`.  If the second DELETE hits the
foreign-key check (a `user_progress` row still references the user), the error
is caught; the first DELETE has already executed on the connection and the
module never rolls back, so the grade deletions remain visible. -/
def remove_user (s : State) (user_id : Nat) : State :=
  let s1 := { s with grades := s.grades.filter (fun g => !(g.user_id == user_id)) }
  if remove_user_err s1 user_id then
    s1
  else
    { s1 with users := s1.users.filter (fun r => !(r.id == user_id)) }

/-- `remove_exercise(connection, exercise_id)`: like `remove_user`, the
exercise-row DELETE fails the foreign-key check when a `user_progress` row
still references the exercise. -/
def remove_exercise (s : State) (exercise_id : Nat) : State :=
  let s1 := { s with grades := s.grades.filter (fun g => !(g.exercise_id == exercise_id)) }
  if s1.progress.any (fun r => r.exercise_id == exercise_id) then
    s1
  else
    { s1 with exercises := s1.exercises.filter (fun r => !(r.id == exercise_id)) }

/-- `remove_grade(connection, grade_id)`: nothing references `grades`, so the
DELETE always succeeds. -/
def remove_grade (s : State) (grade_id : Nat) : State :=
  { s with grades := s.grades.filter (fun g => !(g.id == grade_id)) }

/-- `remove_user_progress(connection, user_id)`: deletes the user's progress
rows for all exercises (no exercise filter in the WHERE clause). -/
def remove_user_progress (s : State) (user_id : Nat) : State :=
  { s with progress := s.progress.filter (fun r => !(r.user_id == user_id)) }

/-- `update_user(connection, name, user_id)` (source parameter order). -/
def update_user (s : State) (name : String) (user_id : Nat) : State :=
  { s with users := s.users.map (fun r =>
      if r.id == user_id then { r with name := name } else r) }

/-- Python truthiness of an optional string argument (`if name:`): `None` and
the empty string are falsy. -/
def truthy (o : Option String) : Bool :=
  match o with
  | none => false
  | some v => !(v == "")

/-- `update_exercise(connection, exercise_id, name=None, description=None)`:
both UPDATE statements target a table named `exercise`, but `create_tables`
only ever creates `exercises`, so the first statement executed raises
`sqlite3.OperationalError` (no such table), the `except` branch swallows it
and `commit` is never reached: whenever either field is supplied the call
changes nothing, and when neither is supplied no statement runs at all. -/
def update_exercise (s : State) (exercise_id : Nat)
    (name description : Option String) : State :=
  if truthy name then
    s
  else if truthy description then
    s
  else
    s

/-- `update_grades(connection, grade_id, grade)`. -/
def update_grades (s : State) (grade_id : Nat) (grade : ℚ) : State :=
  { s with grades := s.grades.map (fun g =>
      if g.id == grade_id then { g with grade := grade } else g) }

/-- Folding `add_grade` over a list of (grade, timestamp) pairs for one
(user, exercise) pair. -/
def addGrades (s : State) (user_id exercise_id : Nat)
    (gts : List (ℚ × String)) : State :=
  gts.foldl (fun st gt => add_grade st user_id exercise_id gt.1 gt.2) s

/-- The `user_progress` rows for one (user, exercise) pair, in table order. -/
def pairRows (s : State) (user_id exercise_id : Nat) : List ProgressRow :=
  s.progress.filter (pairMatch user_id exercise_id)

/-- The write operations of the module, with every clock read made an explicit
argument.  The read operations do not change the state. -/
inductive Op where
  | addUser (name date : String)
  | addExercise (name description : String)
  | addGrade (user_id exercise_id : Nat) (grade : ℚ) (date : String)
  | removeUser (user_id : Nat)
  | removeExercise (exercise_id : Nat)
  | removeGrade (grade_id : Nat)
  | removeUserProgress (user_id : Nat)
  | updateUser (name : String) (user_id : Nat)
  | updateExercise (exercise_id : Nat) (name description : Option String)
  | updateGrades (grade_id : Nat) (grade : ℚ)
deriving DecidableEq, Repr

/-- One public write operation applied to the connection-visible state. -/
def step (s : State) : Op → State
  | .addUser name date => add_user s name date
  | .addExercise name description => add_exercise s name description
  | .addGrade u e g date => add_grade s u e g date
  | .removeUser u => remove_user s u
  | .removeExercise e => remove_exercise s e
  | .removeGrade g => remove_grade s g
  | .removeUserProgress u => remove_user_progress s u
  | .updateUser name u => update_user s name u
  | .updateExercise e name description => update_exercise s e name description
  | .updateGrades g grade => update_grades s g grade

/-- A run of the module: `create_tables` on a fresh database followed by a
sequence of public write operations. -/
def run (ops : List Op) : State :=
  ops.foldl step initialState

/-- Fault injection for the `try/except sqlite3.Error` wrapper around every
write operation: when the storage layer fails at the operation's first
statement, the `except` branch prints and the function returns with nothing
executed. -/
def stepF (s : State) (op : Op) (err : Bool) : State :=
  if err then s else step s op

/-- `get_users` with its `except` branch: on a storage error it returns `[]`. -/
def get_users_f (s : State) (err : Bool) : List UserRow :=
  if err then [] else get_users s

/-- `get_exercises` with its `except` branch. -/
def get_exercises_f (s : State) (err : Bool) : List ExerciseRow :=
  if err then [] else get_exercises s

/-- `get_grades_of_user` with its `except` branch. -/
def get_grades_of_user_f (s : State) (user_id : Nat) (err : Bool) : List GradeView :=
  if err then [] else get_grades_of_user s user_id

/-- At most one `user_progress` row per (user, exercise) pair — the table's
composite primary key. -/
def progressKeysUnique (s : State) : Prop :=
  s.progress.Pairwise (fun r₁ r₂ =>
    ¬(r₁.user_id = r₂.user_id ∧ r₁.exercise_id = r₂.exercise_id))

/-! ## Helper lemmas -/

lemma find?_eq_head_filter {α : Type _} (p : α → Bool) (l : List α) :
    l.find? p = (l.filter p).head? := by
  induction l with
  | nil => rfl
  | cons a l ih =>
    by_cases h : p a = true
    · rw [List.find?_cons_of_pos _ h, List.filter_cons_of_pos h, List.head?_cons]
    · rw [List.find?_cons_of_neg _ h, List.filter_cons_of_neg h, ih]

lemma update_user_progression_users (s : State) (u e : Nat) (g : ℚ) (t : String) :
    (update_user_progression s u e g t).users = s.users := by
  unfold update_user_progression
  cases h : s.progress.find? (pairMatch u e) <;> simp [h]

lemma update_user_progression_exercises (s : State) (u e : Nat) (g : ℚ) (t : String) :
    (update_user_progression s u e g t).exercises = s.exercises := by
  unfold update_user_progression
  cases h : s.progress.find? (pairMatch u e) <;> simp [h]

lemma add_grade_users (s : State) (u e : Nat) (g : ℚ) (t : String) :
    (add_grade s u e g t).users = s.users := by
  unfold add_grade
  split
  · rw [update_user_progression_users]
  · rfl

lemma add_grade_exercises (s : State) (u e : Nat) (g : ℚ) (t : String) :
    (add_grade s u e g t).exercises = s.exercises := by
  unfold add_grade
  split
  · rw [update_user_progression_exercises]
  · rfl

lemma userExists_add_grade (s : State) (u e : Nat) (g : ℚ) (t : String)
    (u' : Nat) : userExists (add_grade s u e g t) u' = userExists s u' := by
  unfold userExists
  rw [add_grade_users]

lemma exerciseExists_add_grade (s : State) (u e : Nat) (g : ℚ) (t : String)
    (e' : Nat) : exerciseExists (add_grade s u e g t) e' = exerciseExists s e' := by
  unfold exerciseExists
  rw [add_grade_exercises]

/-! ## Claim C8 -/

/-- Claim C8: `calculate_progress` with no prior progress (`None`) and a new
grade of 70 yields `(70, 1)`; in general, with no prior aggregate the pair
`(average, count)` is treated as `(0, 0)` before applying the formula, so a
first attempt's average equals exactly the new grade. -/
theorem calculate_progress_first_attempt :
    calculate_progress none 70 = (70, 1) ∧
    (∀ g : ℚ, calculate_progress none g = (g, 1)) ∧
    (∀ g : ℚ, calculate_progress none g = calculate_progress (some (0, 0)) g) := by
  refine ⟨?_, ?_, ?_⟩
  · norm_num [calculate_progress]
  · intro g; norm_num [calculate_progress]
  · intro g; rfl

/-! ## Claim C10 -/

/-- Claim C10: for prior progress absent or with attempt count ≥ 0, the
divisor `new_attempts` equals the old attempt count plus one, hence is ≥ 1,
so the division in the incremental-mean formula never divides by zero. -/
theorem calculate_progress_divisor_pos (p : Option (ℚ × ℤ)) (g : ℚ)
    (h : p = none ∨ ∃ a c, p = some (a, c) ∧ 0 ≤ c) :
    (calculate_progress p g).2 = (p.getD (0, 0)).2 + 1 ∧
    1 ≤ (calculate_progress p g).2 ∧
    (((calculate_progress p g).2 : ℚ)) ≠ 0 := by
  rcases h with h | ⟨a, c, h, hc⟩ <;> subst h
  · refine ⟨rfl, by norm_num [calculate_progress], by norm_num [calculate_progress]⟩
  · refine ⟨rfl, ?_, ?_⟩
    · simpa [calculate_progress] using hc
    · have h1 : (1 : ℤ) ≤ c + 1 := by omega
      have : ((c + 1 : ℤ) : ℚ) ≠ 0 := by
        exact_mod_cast (by omega : (c + 1 : ℤ) ≠ 0)
      simpa [calculate_progress] using this

/-- Witness for C10: concrete evaluation at `p = some (61, 2)`, grade 70. -/
theorem calculate_progress_divisor_pos_witness :
    (calculate_progress (some (61, 2)) 70).2 = ((some (61, 2) : Option (ℚ × ℤ)).getD (0, 0)).2 + 1 ∧
    1 ≤ (calculate_progress (some (61, 2)) 70).2 ∧
    (((calculate_progress (some (61, 2)) 70).2 : ℚ)) ≠ 0 :=
  calculate_progress_divisor_pos (some (61, 2)) 70 (Or.inr ⟨61, 2, rfl, by norm_num⟩)

/-! ## Claim C2 -/

/-- Claim C2: `add_grade` with a dangling `user_id` or `exercise_id` is
rejected by foreign-key enforcement: the whole state is unchanged — no grade
row is created and `update_user_progression` never runs, so no progress row is
created or modified. -/
theorem add_grade_fk_reject (s : State) (u e : Nat) (g : ℚ) (t : String)
    (h : ¬(userExists s u = true ∧ exerciseExists s e = true)) :
    add_grade s u e g t = s := by
  unfold add_grade
  rw [if_neg]
  simpa [Bool.and_eq_true] using h

/-- Witness for C2: on the fresh database no user 1 or exercise 1 exists, so
`add_grade` leaves the state untouched. -/
theorem add_grade_fk_reject_witness :
    add_grade initialState 1 1 70 "2025-01-01 00:00:00" = initialState :=
  add_grade_fk_reject initialState 1 1 70 "2025-01-01 00:00:00" (by decide)

/-! ## Claim C3 (code bug: `update_exercise` targets table `exercise`,
but the schema only creates `exercises`) -/

/-- A state holding the exercise of the demonstration script. -/
def exerciseOnlyState : State :=
  add_exercise initialState "Test" "Testing insertion"

/-- Claim C3 evaluation at the failing input: `update_exercise` called on an
existing exercise with only a (non-empty) name supplied leaves the whole
state — in particular the exercise's name — unchanged, because the UPDATE
statement names the nonexistent table `exercise` and the raised error is
swallowed.  The claim says the name is updated. -/
theorem update_exercise_noop_on_name :
    update_exercise exerciseOnlyState 1 (some "NewName") none = exerciseOnlyState ∧
    (update_exercise exerciseOnlyState 1 (some "NewName") none).exercises.map
      ExerciseRow.name = ["Test"] ∧
    update_exercise exerciseOnlyState 1 none (some "NewDesc") = exerciseOnlyState := by
  refine ⟨rfl, by decide, rfl⟩

/-! ## Claim C4 -/

/-- Claim C4: `get_user_progress` queries `user_progress` by `user_id` alone
and takes `fetchone()`, so it returns at most one row (`Option`); when it
returns a row, that row is one of the user's progress rows (an arbitrary
matching one — the first in table order, whatever exercise it belongs to). -/
theorem get_user_progress_first_match (s : State) (u : Nat)
    (p : Nat × ℚ × ℤ × String) (h : get_user_progress s u = some p) :
    ∃ r ∈ s.progress, r.user_id = u ∧
      p = (r.user_id, r.average_grade, r.attempt_count, r.last_attempt) := by
  unfold get_user_progress at h
  rcases Option.map_eq_some'.mp h with ⟨r, hr, hp⟩
  refine ⟨r, List.mem_of_find?_eq_some hr, ?_, hp.symm⟩
  have := List.find?_some hr
  simpa using this

/-- Witness for C4: a user with progress rows on two exercises; the call
returns the first row. -/
def twoProgressState : State :=
  { initialState with
    users := [{ id := 1, name := "John", created_at := "2025-01-01 00:00:00" }],
    exercises := [{ id := 1, name := "Test", description := "Testing insertion" },
                  { id := 2, name := "Scale", description := "Scales" }],
    progress := [{ user_id := 1, exercise_id := 1, average_grade := 61,
                   attempt_count := 2, last_attempt := "2025-01-01 00:00:01" },
                 { user_id := 1, exercise_id := 2, average_grade := 40,
                   attempt_count := 1, last_attempt := "2025-01-01 00:00:02" }],
    nextUserId := 2, nextExerciseId := 3 }

theorem get_user_progress_first_match_witness :
    ∃ r ∈ twoProgressState.progress, r.user_id = 1 ∧
      ((1 : Nat), (61 : ℚ), (2 : ℤ), "2025-01-01 00:00:01") =
        (r.user_id, r.average_grade, r.attempt_count, r.last_attempt) :=
  get_user_progress_first_match twoProgressState 1
    (1, 61, 2, "2025-01-01 00:00:01") (by decide)

/-! ## Claims C5 and C7: `remove_user` under foreign-key enforcement -/

lemma remove_user_unfold (s : State) (u : Nat) :
    (remove_user s u).grades = s.grades.filter (fun g => !(g.user_id == u)) ∧
    (remove_user s u).progress = s.progress ∧
    (remove_user s u).exercises = s.exercises ∧
    (remove_user_err s u = true → (remove_user s u).users = s.users) ∧
    (remove_user_err s u = false →
      (remove_user s u).users = s.users.filter (fun r => !(r.id == u))) := by
  unfold remove_user
  by_cases h : remove_user_err s u = true
  · have h1 : remove_user_err
        { s with grades := s.grades.filter (fun g => !(g.user_id == u)) } u = true := h
    simp [h1, h]
  · rw [Bool.not_eq_true] at h
    have h1 : remove_user_err
        { s with grades := s.grades.filter (fun g => !(g.user_id == u)) } u = false := h
    simp [h1, h]

/-- A state in which user 1 still has a `user_progress` row (and a grade
row): the run `add_user; add_exercise; add_grade` reaches it. -/
def userWithProgressState : State :=
  { initialState with
    users := [{ id := 1, name := "John", created_at := "2025-01-01 00:00:00" }],
    exercises := [{ id := 1, name := "Test", description := "Testing insertion" }],
    grades := [{ id := 1, user_id := 1, exercise_id := 1, grade := 70,
                 time_attempt := "2025-01-01 00:00:01" }],
    progress := [{ user_id := 1, exercise_id := 1, average_grade := 70,
                   attempt_count := 1, last_attempt := "2025-01-01 00:00:01" }],
    nextUserId := 2, nextExerciseId := 2, nextGradeId := 2 }

/-- Counterexample to C5 as stated: when the removed user still has a progress
row, `DELETE FROM users` fails the foreign-key check (`user_progress.user_id
REFERENCES users(id)`), so the user row is NOT deleted — the claim asserts it
always is. -/
theorem remove_user_fk_counterexample :
    (remove_user userWithProgressState 1).users = userWithProgressState.users ∧
    userWithProgressState.users ≠ [] ∧
    ¬((remove_user userWithProgressState 1).users =
        userWithProgressState.users.filter (fun r => !(r.id == 1))) := by
  refine ⟨rfl, by decide, by decide⟩

/-- Claim C5, amended for foreign-key enforcement: `remove_user` always
deletes the user's grade rows and leaves every progress row (and the
exercises) unchanged; the user row itself is deleted exactly when no progress
row references the user, and survives (the DELETE is rejected and the error
swallowed) when one does. -/
theorem remove_user_spec (s : State) (u : Nat) :
    (remove_user s u).grades = s.grades.filter (fun g => !(g.user_id == u)) ∧
    (remove_user s u).progress = s.progress ∧
    (remove_user s u).exercises = s.exercises ∧
    (remove_user_err s u = true → (remove_user s u).users = s.users) ∧
    (remove_user_err s u = false →
      (remove_user s u).users = s.users.filter (fun r => !(r.id == u))) :=
  remove_user_unfold s u

/-- Witness for C5 (amended): a user without progress rows is fully removed,
grades included, progress untouched. -/
theorem remove_user_spec_witness :
    (remove_user twoProgressState 2).users =
      twoProgressState.users.filter (fun r => !(r.id == 2)) ∧
    (remove_user twoProgressState 2).progress = twoProgressState.progress :=
  ⟨(remove_user_spec twoProgressState 2).2.2.2.2 (by decide),
   (remove_user_spec twoProgressState 2).2.1⟩

/-- Counterexample to C7 as stated: during `remove_user` on a user that still
has a progress row a storage error is raised (the foreign-key rejection of the
user-row DELETE); the error is swallowed, but the operation is NOT a no-op —
the already-executed grade deletion stays visible on the connection. -/
theorem swallowed_error_not_noop :
    remove_user_err userWithProgressState 1 = true ∧
    remove_user userWithProgressState 1 ≠ userWithProgressState ∧
    (remove_user userWithProgressState 1).grades = [] ∧
    userWithProgressState.grades ≠ [] := by
  refine ⟨rfl, by decide, rfl, by decide⟩

/-- Claim C7, amended: every operation catches storage errors locally and
returns a benign value instead of propagating — an injected failure at a write
operation's first statement leaves the state unchanged (in particular a failed
`add_user` leaves no new user row), and the reads return `[]` on error.  But a
multi-statement write whose later statement fails keeps the effects of the
statements already executed: `remove_user` blocked by the foreign-key check
still deletes the user's grade rows. -/
theorem error_swallowing_spec :
    (∀ (s : State) (op : Op), stepF s op true = s) ∧
    (∀ s : State, get_users_f s true = []) ∧
    (∀ s : State, get_exercises_f s true = []) ∧
    (∀ (s : State) (u : Nat), get_grades_of_user_f s u true = []) ∧
    (∀ (s : State) (u : Nat), remove_user_err s u = true →
      (remove_user s u).users = s.users ∧
      (remove_user s u).progress = s.progress ∧
      (remove_user s u).grades = s.grades.filter (fun g => !(g.user_id == u))) := by
  refine ⟨fun s op => rfl, fun s => rfl, fun s => rfl, fun s u => rfl, fun s u h => ?_⟩
  exact ⟨(remove_user_unfold s u).2.2.2.1 h, (remove_user_unfold s u).2.1,
    (remove_user_unfold s u).1⟩

/-- Witness for C7 (amended), applied at the concrete partially-failing
`remove_user` call. -/
theorem error_swallowing_spec_witness :
    (remove_user userWithProgressState 1).users = userWithProgressState.users ∧
    (remove_user userWithProgressState 1).progress = userWithProgressState.progress ∧
    (remove_user userWithProgressState 1).grades =
      userWithProgressState.grades.filter (fun g => !(g.user_id == 1)) :=
  error_swallowing_spec.2.2.2.2 userWithProgressState 1 (by decide)

/-! ## Claim C9: at most one progress row per (user, exercise) pair -/

lemma pairMatch_eq_true_iff (u e : Nat) (r : ProgressRow) :
    pairMatch u e r = true ↔ r.user_id = u ∧ r.exercise_id = e := by
  simp [pairMatch]

lemma updatedRow_user_id (u e : Nat) (v : ℚ) (c : ℤ) (t : String) (r : ProgressRow) :
    (if pairMatch u e r = true then
      { r with average_grade := v, attempt_count := c, last_attempt := t }
     else r).user_id = r.user_id := by
  split <;> rfl

lemma updatedRow_exercise_id (u e : Nat) (v : ℚ) (c : ℤ) (t : String) (r : ProgressRow) :
    (if pairMatch u e r = true then
      { r with average_grade := v, attempt_count := c, last_attempt := t }
     else r).exercise_id = r.exercise_id := by
  split <;> rfl

lemma update_user_progression_keys_unique (s : State) (u e : Nat) (g : ℚ)
    (t : String) (h : progressKeysUnique s) :
    progressKeysUnique (update_user_progression s u e g t) := by
  unfold update_user_progression progressKeysUnique
  cases hc : s.progress.find? (pairMatch u e) with
  | some r₀ =>
    simp only [hc]
    refine List.Pairwise.map _ ?_ h
    intro a b hab hcon
    refine hab ⟨?_, ?_⟩
    · have := hcon.1
      rwa [updatedRow_user_id, updatedRow_user_id] at this
    · have := hcon.2
      rwa [updatedRow_exercise_id, updatedRow_exercise_id] at this
  | none =>
    simp only [hc]
    rw [List.pairwise_append]
    refine ⟨h, List.pairwise_singleton _ _, ?_⟩
    intro a ha b hb
    rw [List.mem_singleton] at hb
    subst hb
    have := List.find?_eq_none.mp hc a ha
    rw [pairMatch_eq_true_iff] at this
    simpa using this

lemma remove_exercise_progress (s : State) (e : Nat) :
    (remove_exercise s e).progress = s.progress := by
  unfold remove_exercise
  by_cases hc : (s.progress.any fun r => r.exercise_id == e) = true
  · have h1 : (({ s with grades := s.grades.filter (fun g => !(g.exercise_id == e)) }).progress.any
        fun r => r.exercise_id == e) = true := hc
    simp [h1]
  · rw [Bool.not_eq_true] at hc
    have h1 : (({ s with grades := s.grades.filter (fun g => !(g.exercise_id == e)) }).progress.any
        fun r => r.exercise_id == e) = false := hc
    simp [h1]

lemma progress_step (s : State) (op : Op) (h : progressKeysUnique s) :
    progressKeysUnique (step s op) := by
  cases op with
  | addUser name date => exact h
  | addExercise name description => exact h
  | addGrade u e g date =>
    show progressKeysUnique (add_grade s u e g date)
    unfold add_grade
    split
    · exact update_user_progression_keys_unique _ u e g date h
    · exact h
  | removeUser u =>
    show progressKeysUnique (remove_user s u)
    unfold progressKeysUnique
    rw [(remove_user_unfold s u).2.1]
    exact h
  | removeExercise e =>
    show progressKeysUnique (remove_exercise s e)
    unfold progressKeysUnique
    rw [remove_exercise_progress]
    exact h
  | removeGrade g => exact h
  | removeUserProgress u =>
    exact List.Pairwise.sublist (List.filter_sublist _) h
  | updateUser name u => exact h
  | updateExercise e name description =>
    show progressKeysUnique (update_exercise s e name description)
    unfold update_exercise
    split
    · exact h
    · split <;> exact h
  | updateGrades g grade => exact h

/-- Claim C9: in every reachable state (any sequence of write operations run
against a fresh database) there is at most one `user_progress` row per
(user, exercise) pair: `update_user_progression` updates the existing row in
place when one is present and inserts only when none is, and no other
operation inserts into `user_progress`. -/
theorem progress_primary_key_unique (ops : List Op) :
    progressKeysUnique (run ops) := by
  have main : ∀ s : State, progressKeysUnique s →
      progressKeysUnique (ops.foldl step s) := by
    induction ops with
    | nil => exact fun s h => h
    | cons op ops ih => exact fun s h => ih _ (progress_step s op h)
  exact main initialState (by simp [progressKeysUnique, initialState])

/-! ## Claim C6: `get_grades_of_user` ordering -/

/-- Claim C6: `get_grades_of_user` returns exactly the
(exerciseName, grade, timestamp) tuples of the grade-to-exercise join filtered
to the user (a permutation of the join result), ordered by timestamp
descending, with ties broken by insertion order (for each timestamp value the
rows appear in the same order as in the join, which enumerates grade rows in
insertion order). -/
theorem get_grades_of_user_ordering (s : State) (u : Nat) :
    List.Perm (get_grades_of_user s u) (joinGrades s u) ∧
    List.Sorted laterFirst (get_grades_of_user s u) ∧
    ∀ ts : String,
      (get_grades_of_user s u).filter (fun x => x.2.2 == ts) =
        (joinGrades s u).filter (fun x => x.2.2 == ts) := by
  refine ⟨List.perm_insertionSort laterFirst _, List.sorted_insertionSort laterFirst _, ?_⟩
  intro ts
  have hall : ∀ x ∈ (joinGrades s u).filter (fun x => x.2.2 == ts), x.2.2 = ts := by
    intro x hx
    have := List.of_mem_filter hx
    simpa using this
  have hpair : ((joinGrades s u).filter (fun x => x.2.2 == ts)).Pairwise laterFirst := by
    refine List.pairwise_of_forall_mem_list ?_
    intro a ha b hb
    unfold laterFirst
    rw [hall a ha, hall b hb]
  have hsub : List.Sublist ((joinGrades s u).filter (fun x => x.2.2 == ts))
      (List.insertionSort laterFirst (joinGrades s u)) :=
    List.sublist_insertionSort hpair (List.filter_sublist _)
  have hperm : List.Perm ((List.insertionSort laterFirst (joinGrades s u)).filter
      (fun x => x.2.2 == ts)) ((joinGrades s u).filter (fun x => x.2.2 == ts)) :=
    (List.perm_insertionSort laterFirst _).filter _
  have hcf : ((joinGrades s u).filter (fun x => x.2.2 == ts)).filter
      (fun x => x.2.2 == ts) = (joinGrades s u).filter (fun x => x.2.2 == ts) :=
    List.filter_eq_self.mpr (fun a ha => (List.mem_filter.mp ha).2)
  have hsub2 := hsub.filter (fun x => x.2.2 == ts)
  rw [hcf] at hsub2
  show (List.insertionSort laterFirst (joinGrades s u)).filter (fun x => x.2.2 == ts) =
    (joinGrades s u).filter (fun x => x.2.2 == ts)
  exact (hsub2.eq_of_length hperm.length_eq.symm).symm

/-! ## Claim C1: N grades for one pair give mean and count N -/

lemma calc_progress_none (g : ℚ) : calculate_progress none g = (g, 1) := by
  norm_num [calculate_progress]

lemma pairMatch_mk (u e : Nat) (v : ℚ) (c : ℤ) (t : String) :
    pairMatch u e ⟨u, e, v, c, t⟩ = true := by
  simp [pairMatch]

/-- Invariant tying the `user_progress` rows of a pair to the multiset of
grades recorded so far: no row while no grade was recorded, afterwards exactly
one row holding the running mean and the count. -/
def pairAgg (s : State) (u e : Nat) (L : List ℚ) : Prop :=
  (L = [] ∧ pairRows s u e = []) ∨
  (L ≠ [] ∧ ∃ t, pairRows s u e =
    [{ user_id := u, exercise_id := e,
       average_grade := L.sum / (L.length : ℚ),
       attempt_count := (L.length : ℤ), last_attempt := t }])

lemma length_cast_ne_zero (L : List ℚ) (hL : L ≠ []) : (L.length : ℚ) ≠ 0 := by
  have : 0 < L.length := List.length_pos.mpr hL
  exact_mod_cast this.ne'

lemma mean_step (L : List ℚ) (g : ℚ) (hL : L ≠ []) :
    (L.sum / (L.length : ℚ) * (((L.length : ℤ)) : ℚ) + g) / ((((L.length : ℤ) + 1 : ℤ)) : ℚ)
      = (L ++ [g]).sum / (((L ++ [g]).length) : ℚ) := by
  have h0 : (L.length : ℚ) ≠ 0 := length_cast_ne_zero L hL
  rw [List.sum_append, List.length_append]
  push_cast
  rw [div_mul_cancel₀ _ h0]
  norm_num

lemma update_user_progression_pairAgg (s : State) (u e : Nat) (g : ℚ)
    (t : String) (L : List ℚ) (hL : pairAgg s u e L) :
    pairAgg (update_user_progression s u e g t) u e (L ++ [g]) := by
  unfold update_user_progression
  have hfind : s.progress.find? (pairMatch u e) = (pairRows s u e).head? :=
    find?_eq_head_filter _ _
  rcases hL with ⟨hL0, hrows⟩ | ⟨hLne, t₀, hrows⟩
  · -- no prior row: the INSERT branch runs with `calculate_progress(None, g)`
    have hnone : s.progress.find? (pairMatch u e) = none := by
      rw [hfind, hrows]; rfl
    simp only [hnone, Option.map_none']
    subst hL0
    refine Or.inr ⟨by simp, t, ?_⟩
    unfold pairRows at hrows ⊢
    simp only [List.filter_append, hrows, List.nil_append]
    rw [calc_progress_none]
    simp [pairMatch_mk]
  · -- one prior row: the UPDATE branch rewrites it in place
    have hsome : s.progress.find? (pairMatch u e) = some
        { user_id := u, exercise_id := e,
          average_grade := L.sum / (L.length : ℚ),
          attempt_count := (L.length : ℤ), last_attempt := t₀ } := by
      rw [hfind, hrows]; rfl
    simp only [hsome, Option.map_some']
    refine Or.inr ⟨by simp, t, ?_⟩
    unfold pairRows at hrows ⊢
    rw [List.filter_map]
    have hpf : (pairMatch u e ∘ fun r =>
        if pairMatch u e r = true then
          { r with
            average_grade := (calculate_progress (some (L.sum / (L.length : ℚ), (L.length : ℤ))) g).1,
            attempt_count := (calculate_progress (some (L.sum / (L.length : ℚ), (L.length : ℤ))) g).2,
            last_attempt := t }
        else r) = pairMatch u e := by
      funext r
      show pairMatch u e (if pairMatch u e r = true then _ else r) = pairMatch u e r
      unfold pairMatch
      split <;> rfl
    rw [hpf, hrows]
    rw [List.map_singleton]
    rw [if_pos (pairMatch_mk u e _ _ _)]
    have hcalc : calculate_progress (some (L.sum / (L.length : ℚ), (L.length : ℤ))) g =
        ((L ++ [g]).sum / (((L ++ [g]).length) : ℚ), ((L ++ [g]).length : ℤ)) := by
      unfold calculate_progress
      simp only [Option.getD_some]
      refine Prod.ext ?_ ?_
      · exact mean_step L g hLne
      · show (L.length : ℤ) + 1 = ((L ++ [g]).length : ℤ)
        rw [List.length_append, List.length_singleton]
        push_cast
        ring
    rw [hcalc]

lemma add_grade_pairAgg (s : State) (u e : Nat) (g : ℚ) (t : String) (L : List ℚ)
    (hu : userExists s u = true) (he : exerciseExists s e = true)
    (hL : pairAgg s u e L) :
    pairAgg (add_grade s u e g t) u e (L ++ [g]) := by
  unfold add_grade
  rw [if_pos (by rw [Bool.and_eq_true]; exact ⟨hu, he⟩)]
  exact update_user_progression_pairAgg _ u e g t L hL

lemma addGrades_pairAgg (gts : List (ℚ × String)) (s : State) (u e : Nat) (L : List ℚ)
    (hu : userExists s u = true) (he : exerciseExists s e = true)
    (hL : pairAgg s u e L) :
    pairAgg (addGrades s u e gts) u e (L ++ gts.map Prod.fst) := by
  induction gts generalizing s L with
  | nil => simpa [addGrades] using hL
  | cons gt gts ih =>
    have h1 : addGrades s u e (gt :: gts) = addGrades (add_grade s u e gt.1 gt.2) u e gts := rfl
    rw [h1]
    have hu1 : userExists (add_grade s u e gt.1 gt.2) u = true := by
      rw [userExists_add_grade]; exact hu
    have he1 : exerciseExists (add_grade s u e gt.1 gt.2) e = true := by
      rw [exerciseExists_add_grade]; exact he
    have hL1 := add_grade_pairAgg s u e gt.1 gt.2 L hu he hL
    have := ih (add_grade s u e gt.1 gt.2) (L ++ [gt.1]) hu1 he1 hL1
    simpa [List.append_assoc] using this

/-- Claim C1: starting from a state where the (user, exercise) pair exists and
has no progress row, adding the grades g1..gN via `add_grade` leaves exactly
one progress row for the pair, whose average is the arithmetic mean of g1..gN
and whose attempt count is N. -/
theorem add_grade_sequence_mean (s : State) (u e : Nat) (gts : List (ℚ × String))
    (hu : userExists s u = true) (he : exerciseExists s e = true)
    (h0 : pairRows s u e = []) (hne : gts ≠ []) :
    ∃ t, pairRows (addGrades s u e gts) u e =
      [{ user_id := u, exercise_id := e,
         average_grade := (gts.map Prod.fst).sum / ((gts.map Prod.fst).length : ℚ),
         attempt_count := ((gts.map Prod.fst).length : ℤ),
         last_attempt := t }] := by
  have h := addGrades_pairAgg gts s u e [] hu he (Or.inl ⟨rfl, h0⟩)
  rw [List.nil_append] at h
  rcases h with ⟨hmape, _⟩ | ⟨_, t, hrows⟩
  · exact absurd (by simpa using hmape) hne
  · exact ⟨t, hrows⟩

/-- The demonstration script's state after `add_user("John")` and
`add_exercise("Test", "Testing insertion")`. -/
def demoState : State :=
  add_exercise (add_user initialState "John" "2025-01-01 00:00:00")
    "Test" "Testing insertion"

/-- The demonstration script's four grades for pair (1, 1). -/
def demoGrades : List (ℚ × String) :=
  [(59, "2025-01-01 00:00:01"), (54, "2025-01-01 00:00:02"),
   (87, "2025-01-01 00:00:03"), (45, "2025-01-01 00:00:04")]

/-- Witness for C1: the demonstration run (grades 59, 54, 87, 45) ends with
one progress row of average (59+54+87+45)/4 and count 4. -/
theorem add_grade_sequence_mean_witness :
    ∃ t, pairRows (addGrades demoState 1 1 demoGrades) 1 1 =
      [{ user_id := 1, exercise_id := 1,
         average_grade := (demoGrades.map Prod.fst).sum / ((demoGrades.map Prod.fst).length : ℚ),
         attempt_count := ((demoGrades.map Prod.fst).length : ℤ),
         last_attempt := t }] :=
  add_grade_sequence_mean demoState 1 1 demoGrades (by decide) (by decide)
    (by decide) (by decide)
